import Mathlib

/-!
Shallow embedding of the Invoice-Backend server (src/server.js): the invoice
data model, the create-invoice handler (`POST /api/invoices`) and the PDF
layout engine `generateInvoicePDF`.  Vertical positions are in PDF units and
are natural numbers; monetary amounts are rationals.  Dates are modelled as
their already-formatted strings (`toLocaleDateString` output), since no claim
depends on date formatting.  The renderer is modelled as a pure function from
an invoice value and the logo-asset state to the ordered list of drawing
operations it emits (`doc.image`, `doc.text`, `moveTo/lineTo/stroke`), each
carrying the exact coordinates and font size of the corresponding call.
-/

namespace InvoiceBackend

/-- Client information sub-document of the invoice schema: `name` and `email`
are required, `address` and `phone` are optional (server.js lines 424-429). -/
structure ClientInfo where
  name : String
  email : String
  address : Option String
  phone : Option String
deriving DecidableEq, Repr

/-- Company information sub-document; every field has a schema default, so a
stored invoice always carries concrete strings (server.js lines 430-435). -/
structure CompanyInfo where
  name : String
  address : String
  email : String
  phone : String
deriving DecidableEq, Repr

/-- One line item of a stored invoice (server.js lines 436-441). -/
structure Item where
  description : String
  quantity : ℚ
  rate : ℚ
  amount : ℚ
deriving DecidableEq, Repr

/-- A stored invoice as consumed by `generateInvoicePDF`.  `dueDate` is the
optional formatted due-date string and `createdAt` the formatted creation
date (server.js lines 422-449). -/
structure Invoice where
  invoiceNumber : String
  clientInfo : ClientInfo
  companyInfo : CompanyInfo
  items : List Item
  subtotal : ℚ
  tax : ℚ
  total : ℚ
  status : String
  dueDate : Option String
  createdAt : String
deriving DecidableEq, Repr

/-- State of the logo asset at `__dirname/logo.png`: absent from the
filesystem, present and loadable, or present but failing to load (the
`doc.image` call throws and is caught, server.js lines 474-483). -/
inductive LogoState where
  | absent
  | present
  | broken
deriving DecidableEq, Repr

/-- A drawing operation emitted to the PDF document, in emission order:
`text s x y f` is `doc.fontSize(f).text(s, x, y)`, `rule` is a stroked line
from `(x1, y1)` to `(x2, y2)`, `image` is `doc.image(logo, x, y, {width, height})`. -/
inductive Op where
  | image (x y width height : ℕ)
  | text (s : String) (x y fontSize : ℕ)
  | rule (x1 y1 x2 y2 : ℕ)
deriving DecidableEq, Repr

/-- `toFixed(2)` on a rational amount: sign, integer part, and two rounded
decimal digits (used for `rate`, `amount`, `subtotal`, `tax`, `total`). -/
def toFixed2 (q : ℚ) : String :=
  let sign := if q < 0 then "-" else ""
  let cents : ℤ := round (|q| * 100)
  let whole := cents / 100
  let frac := cents % 100
  sign ++ toString whole ++ "." ++ (if frac < 10 then "0" else "") ++ toString frac

/-- Vertical space reserved for the logo: `logoHeight` is set to 70 only when
the asset exists and `doc.image` succeeds; a missing asset or a load failure
both leave it 0 (server.js lines 471-483). -/
def logoHeight : LogoState → ℕ
  | .present => 70
  | _ => 0

/-- The image operation emitted for the logo; a load failure emits nothing
(the throwing `doc.image` call is caught, server.js lines 476-482). -/
def logoOps : LogoState → List Op
  | .present => [Op.image 50 50 120 60]
  | _ => []

/-- `const headerY = 50 + logoHeight` (server.js line 486). -/
def headerY (l : LogoState) : ℕ := 50 + logoHeight l

/-- `const invoiceTitleY = Math.max(50, headerY)` (server.js line 494). -/
def invoiceTitleY (l : LogoState) : ℕ := max 50 (headerY l)

/-- `const clientY = Math.max(160, headerY + 100)` (server.js line 503). -/
def clientY (l : LogoState) : ℕ := max 160 (headerY l + 100)

/-- The running `clientInfoHeight` accumulator after the conditional address
and phone lines: starts at 55 and gains 15 per present optional field
(server.js lines 509-517). -/
def clientInfoHeight (c : ClientInfo) : ℕ :=
  55 + (if c.address.isSome then 15 else 0) + (if c.phone.isSome then 15 else 0)

/-- `const tableTop = clientY + clientInfoHeight + 30` (server.js line 520). -/
def tableTop (inv : Invoice) (l : LogoState) : ℕ :=
  clientY l + clientInfoHeight inv.clientInfo + 30

/-- Vertical position of item row `i`: the loop starts at `tableTop + 30` and
advances `yPosition` by 20 per row (server.js lines 535-542). -/
def rowY (inv : Invoice) (l : LogoState) (i : ℕ) : ℕ :=
  tableTop inv l + 30 + 20 * i

/-- Value of `yPosition` after the item loop (server.js lines 535-542). -/
def yAfterItems (inv : Invoice) (l : LogoState) : ℕ :=
  tableTop inv l + 30 + 20 * inv.items.length

/-- Position of the totals rule: `yPosition += 20` then stroke
(server.js lines 545-548). -/
def totalsRuleY (inv : Invoice) (l : LogoState) : ℕ := yAfterItems inv l + 20

/-- Position of the Subtotal line: `yPosition += 10` after the rule
(server.js lines 550-552). -/
def subtotalY (inv : Invoice) (l : LogoState) : ℕ := totalsRuleY inv l + 10

/-- Position of the Total line: one extra 20-unit advance when the Tax line
was emitted (server.js lines 554-562). -/
def totalY (inv : Invoice) (l : LogoState) : ℕ :=
  subtotalY inv l + (if 0 < inv.tax then 20 else 0) + 20

/-- Position of the footer line: `yPosition + 80` after the Total line
(server.js lines 565-566). -/
def footerY (inv : Invoice) (l : LogoState) : ℕ := totalY inv l + 80

/-- The conditional due-date line of the title block (server.js lines 498-500). -/
def dueDateOps (inv : Invoice) (l : LogoState) : List Op :=
  match inv.dueDate with
  | some d => [Op.text ("Due Date: " ++ d) 400 (invoiceTitleY l + 60) 12]
  | none => []

/-- The conditional client address line (server.js lines 510-513). -/
def addressOps (inv : Invoice) (l : LogoState) : List Op :=
  match inv.clientInfo.address with
  | some a => [Op.text a 50 (clientY l + 50) 12]
  | none => []

/-- The conditional client phone line, positioned after however many
conditional lines were actually emitted above it (server.js lines 514-517). -/
def phoneOps (inv : Invoice) (l : LogoState) : List Op :=
  match inv.clientInfo.phone with
  | some p =>
      [Op.text p 50 (clientY l + 50 + (if inv.clientInfo.address.isSome then 15 else 0)) 12]
  | none => []

/-- The item rows: four text cells per item, rows 20 units apart, in input
order (server.js lines 535-542). -/
def itemRowOps : List Item → ℕ → List Op
  | [], _ => []
  | it :: rest, y =>
      Op.text it.description 50 y 12 ::
      Op.text (toString it.quantity) 300 y 12 ::
      Op.text ("$" ++ toFixed2 it.rate) 350 y 12 ::
      Op.text ("$" ++ toFixed2 it.amount) 450 y 12 ::
      itemRowOps rest (y + 20)

/-- The conditional Tax line of the totals block, emitted only when
`invoiceData.tax > 0` (server.js lines 554-558). -/
def taxOps (inv : Invoice) (l : LogoState) : List Op :=
  if 0 < inv.tax then
    [Op.text "Tax:" 350 (subtotalY inv l + 20) 12,
     Op.text ("$" ++ toFixed2 inv.tax) 450 (subtotalY inv l + 20) 12]
  else []

/-- `generateInvoicePDF`: the full ordered sequence of drawing operations
emitted for one invoice under a given logo state (server.js lines 463-576). -/
def render (inv : Invoice) (l : LogoState) : List Op :=
  logoOps l
  ++ [Op.text inv.companyInfo.name 50 (headerY l) 20,
      Op.text inv.companyInfo.address 50 (headerY l + 30) 12,
      Op.text inv.companyInfo.email 50 (headerY l + 45) 12,
      Op.text inv.companyInfo.phone 50 (headerY l + 60) 12,
      Op.text "INVOICE" 400 (invoiceTitleY l) 24,
      Op.text ("Invoice #: " ++ inv.invoiceNumber) 400 (invoiceTitleY l + 30) 12,
      Op.text ("Date: " ++ inv.createdAt) 400 (invoiceTitleY l + 45) 12]
  ++ dueDateOps inv l
  ++ [Op.text "Bill To:" 50 (clientY l) 16,
      Op.text inv.clientInfo.name 50 (clientY l + 20) 12,
      Op.text inv.clientInfo.email 50 (clientY l + 35) 12]
  ++ addressOps inv l
  ++ phoneOps inv l
  ++ [Op.text "Description" 50 (tableTop inv l) 12,
      Op.text "Qty" 300 (tableTop inv l) 12,
      Op.text "Rate" 350 (tableTop inv l) 12,
      Op.text "Amount" 450 (tableTop inv l) 12,
      Op.rule 50 (tableTop inv l + 15) 550 (tableTop inv l + 15)]
  ++ itemRowOps inv.items (tableTop inv l + 30)
  ++ [Op.rule 350 (totalsRuleY inv l) 550 (totalsRuleY inv l),
      Op.text "Subtotal:" 350 (subtotalY inv l) 12,
      Op.text ("$" ++ toFixed2 inv.subtotal) 450 (subtotalY inv l) 12]
  ++ taxOps inv l
  ++ [Op.text "Total:" 350 (totalY inv l) 14,
      Op.text ("$" ++ toFixed2 inv.total) 450 (totalY inv l) 14,
      Op.text "Thank you for your business!" 50 (footerY inv l) 10]

/-- Client information as supplied in a create request: any field may be
missing, and `name`/`email` are validated with JavaScript falsiness
(`!clientInfo.name`), so an empty string also fails validation. -/
structure ClientInfoReq where
  name : Option String
  email : Option String
  address : Option String
  phone : Option String
deriving DecidableEq, Repr

/-- Company information as supplied in a create request; missing sub-fields
are filled by the schema defaults on save. -/
structure CompanyInfoReq where
  name : Option String
  address : Option String
  email : Option String
  phone : Option String
deriving DecidableEq, Repr

/-- One line item as supplied in a create request; `amount` is not accepted
from the caller but computed by the handler. -/
structure ItemReq where
  description : String
  quantity : ℚ
  rate : ℚ
deriving DecidableEq, Repr

/-- The body of a `POST /api/invoices` request.  A missing or non-array
`items` value is modelled as `none` (both fail the same
`!items || !Array.isArray(items)` guard). -/
structure CreateRequest where
  clientInfo : Option ClientInfoReq
  companyInfo : Option CompanyInfoReq
  items : Option (List ItemReq)
  tax : Option ℚ
  dueDate : Option String
  status : Option String
deriving DecidableEq, Repr

/-- JavaScript falsiness of an optional string: missing or empty. -/
def strFalsy : Option String → Bool
  | none => true
  | some s => s.isEmpty

/-- `!clientInfo || !clientInfo.name || !clientInfo.email`
(server.js line 592). -/
def clientInvalid : Option ClientInfoReq → Bool
  | none => true
  | some ci => strFalsy ci.name || strFalsy ci.email

/-- `const taxAmount = tax || 0` (server.js line 613): a missing tax field
yields 0, and `0 || 0` is also 0; any other number passes through (negative
numbers are truthy in JavaScript). -/
def jsNumOr (t : Option ℚ) : ℚ :=
  match t with
  | none => 0
  | some x => if x = 0 then 0 else x

/-- `status || 'draft'` (server.js line 625): missing or empty falls back. -/
def jsStrOr (s : Option String) (d : String) : String :=
  match s with
  | none => d
  | some v => if v.isEmpty then d else v

/-- `dueDate ? new Date(dueDate) : null` (server.js line 626): a missing or
empty string stores null. -/
def jsDueDate (d : Option String) : Option String :=
  match d with
  | none => none
  | some v => if v.isEmpty then none else some v

/-- `companyInfo || {}` merged with the schema defaults (server.js lines
430-435 and 620): each missing sub-field gets its fixed placeholder. -/
def companyDefaults (c : Option CompanyInfoReq) : CompanyInfo :=
  let ci := c.getD ⟨none, none, none, none⟩
  { name := ci.name.getD "Your Company Name"
    address := ci.address.getD "123 Business St, City, State 12345"
    email := ci.email.getD "hello@yourcompany.com"
    phone := ci.phone.getD "+1 (555) 123-4567" }

/-- Result returned to the HTTP caller by the create handler. -/
inductive CreateResult where
  | validationError (message : String)
  | created (invoice : Invoice)
deriving DecidableEq, Repr

/-- An observable side effect of the create handler, in execution order:
persisting the record (`invoice.save()`), generating the PDF
(`generateInvoicePDF`), and persisting again with the PDF path. -/
inductive Effect where
  | saveRecord (invoice : Invoice)
  | renderPDF (invoice : Invoice) (outputPath : String)
  | saveRecordWithPath (invoice : Invoice) (pdfPath : String)
deriving DecidableEq, Repr

/-- The `POST /api/invoices` handler (server.js lines 587-660): validates the
client fields and the item list, computes each item's `amount`, the
`subtotal`, the defaulted `tax` and `total`, then saves, renders and saves
again.  The invoice number and formatted creation date come from the ambient
time source and are passed as the arguments `invNum` and `createdAt`.
Returns the HTTP result together with the ordered trace of effects. -/
def createInvoice (req : CreateRequest) (invNum createdAt : String) :
    CreateResult × List Effect :=
  if clientInvalid req.clientInfo then
    (CreateResult.validationError "Client name and email are required", [])
  else
    match req.items with
    | none => (CreateResult.validationError "At least one item is required", [])
    | some its =>
      if its.isEmpty then
        (CreateResult.validationError "At least one item is required", [])
      else
        let processedItems := its.map (fun it =>
          { description := it.description, quantity := it.quantity, rate := it.rate,
            amount := it.quantity * it.rate : Item })
        let subtotal := its.foldl (fun acc it => acc + it.quantity * it.rate) 0
        let taxAmount := jsNumOr req.tax
        let total := subtotal + taxAmount
        let ci := (req.clientInfo.getD ⟨none, none, none, none⟩)
        let inv : Invoice :=
          { invoiceNumber := invNum
            clientInfo :=
              { name := ci.name.getD "", email := ci.email.getD ""
                address := ci.address, phone := ci.phone }
            companyInfo := companyDefaults req.companyInfo
            items := processedItems
            subtotal := subtotal
            tax := taxAmount
            total := total
            status := jsStrOr req.status "draft"
            dueDate := jsDueDate req.dueDate
            createdAt := createdAt }
        let pdfPath := "invoices/invoice-" ++ invNum ++ ".pdf"
        (CreateResult.created inv,
         [Effect.saveRecord inv, Effect.renderPDF inv pdfPath,
          Effect.saveRecordWithPath inv pdfPath])

/-- Whether an operation is the logo image. -/
def Op.isImage : Op → Bool
  | .image _ _ _ _ => true
  | _ => false

/-- Erase the vertical coordinate of an operation, keeping the content,
horizontal position and font size: used to state that two renders differ
only in vertical offsets. -/
def eraseY : Op → Op
  | .image x _ w h => .image x 0 w h
  | .text s x _ f => .text s x 0 f
  | .rule x1 _ x2 _ => .rule x1 0 x2 0

/-- Vertical position of the last emitted client-block line: the phone line
when present, else the address line when present, else the email line
(server.js lines 505-517). -/
def lastClientLineY (inv : Invoice) (l : LogoState) : ℕ :=
  if inv.clientInfo.phone.isSome then
    clientY l + 50 + (if inv.clientInfo.address.isSome then 15 else 0)
  else if inv.clientInfo.address.isSome then clientY l + 50
  else clientY l + 35

/-- The vertical origins of the successive blocks of one render, in emission
order: company header, invoice title, client block, table top, each item
row, totals rule, Subtotal, Total, footer. -/
def blockOrigins (inv : Invoice) (l : LogoState) : List ℕ :=
  [headerY l, invoiceTitleY l, clientY l, tableTop inv l]
  ++ (List.range inv.items.length).map (rowY inv l)
  ++ [totalsRuleY inv l, subtotalY inv l, totalY inv l, footerY inv l]

/-- Replace the optional client address of an invoice. -/
def setAddress (inv : Invoice) (a : Option String) : Invoice :=
  { inv with clientInfo := { inv.clientInfo with address := a } }

lemma itemRowOps_not_image (items : List Item) (y : ℕ) :
    ∀ o ∈ itemRowOps items y, o.isImage = false := by
  induction items generalizing y with
  | nil => simp [itemRowOps]
  | cons it rest ih =>
      intro o ho
      simp only [itemRowOps, List.mem_cons] at ho
      rcases ho with rfl | rfl | rfl | rfl | ho
      · rfl
      · rfl
      · rfl
      · rfl
      · exact ih (y + 20) o ho

lemma itemRowOps_filter_not_image (items : List Item) (y : ℕ) :
    (itemRowOps items y).filter (fun o => !o.isImage) = itemRowOps items y := by
  apply List.filter_eq_self.mpr
  intro o ho
  simp [itemRowOps_not_image items y o ho]

lemma itemRowOps_map_eraseY (items : List Item) (y : ℕ) :
    (itemRowOps items y).map eraseY = (itemRowOps items 0).map eraseY := by
  induction items generalizing y with
  | nil => rfl
  | cons it rest ih => simp only [itemRowOps, List.map_cons, eraseY, ih]

lemma itemRowOps_filter_map_eraseY (items : List Item) (y1 y2 : ℕ) :
    ((itemRowOps items y1).filter (fun o => !o.isImage)).map eraseY =
      ((itemRowOps items y2).filter (fun o => !o.isImage)).map eraseY := by
  rw [itemRowOps_filter_not_image, itemRowOps_filter_not_image,
      itemRowOps_map_eraseY items y1, itemRowOps_map_eraseY items y2]

lemma itemRowOps_mem_description (items : List Item) (y i : ℕ)
    (hi : i < items.length) :
    Op.text (items.get ⟨i, hi⟩).description 50 (y + 20 * i) 12 ∈
      itemRowOps items y := by
  induction items generalizing y i with
  | nil => exact absurd hi (by simp)
  | cons it rest ih =>
      cases i with
      | zero => simp [itemRowOps]
      | succ j =>
          have hj : j < rest.length := by simpa using hi
          have ht := ih (y + 20) j hj
          have harith : y + 20 * (j + 1) = y + 20 + 20 * j := by ring
          simp only [itemRowOps, List.mem_cons]
          exact Or.inr (Or.inr (Or.inr (Or.inr (by rw [harith]; exact ht))))

lemma foldl_add_eq_sum (f : ItemReq → ℚ) (its : List ItemReq) (a : ℚ) :
    its.foldl (fun acc it => acc + f it) a = a + (its.map f).sum := by
  induction its generalizing a with
  | nil => simp
  | cons x xs ih => simp [ih]; ring

/-- Example invoice used to witness the layout theorems. -/
def sampleInvoice : Invoice :=
  { invoiceNumber := "INV-202610-000001"
    clientInfo :=
      { name := "Alice Smith"
        email := "alice@example.com"
        address := some "1 Road St"
        phone := some "555-0100" }
    companyInfo := companyDefaults none
    items := [{ description := "Design", quantity := 2, rate := 50, amount := 100 }]
    subtotal := 100
    tax := 0
    total := 100
    status := "draft"
    dueDate := none
    createdAt := "10/11/2026" }

/-- The same invoice with a positive tax of 8.25. -/
def sampleInvoiceTaxed : Invoice :=
  { sampleInvoice with tax := 33 / 4, total := 100 + 33 / 4 }

/-- Example create request used to witness the create-handler theorems. -/
def sampleReq : CreateRequest :=
  { clientInfo := some
      { name := some "Alice Smith"
        email := some "alice@example.com"
        address := none
        phone := none }
    companyInfo := none
    items := some [{ description := "Design", quantity := 2, rate := 50 }]
    tax := none
    dueDate := none
    status := none }

/-- A create request with no client information at all. -/
def badReq : CreateRequest :=
  { clientInfo := none
    companyInfo := none
    items := none
    tax := none
    dueDate := none
    status := none }

/-- The sample create request with a negative tax field. -/
def negTaxReq : CreateRequest :=
  { sampleReq with tax := some (-5) }

/-- C2: for every rendered invoice, if `tax = 0` no Tax line is emitted and
the Total line sits one 20-unit line height below the Subtotal line; if
`tax > 0` the Tax line is emitted at Subtotal's offset plus one line height
and the Total line sits two line heights (40 units) below Subtotal. -/
theorem c2_tax_line_totals (inv : Invoice) (l : LogoState) :
    (inv.tax = 0 → taxOps inv l = [] ∧ totalY inv l = subtotalY inv l + 20) ∧
    (0 < inv.tax →
      taxOps inv l =
        [Op.text "Tax:" 350 (subtotalY inv l + 20) 12,
         Op.text ("$" ++ toFixed2 inv.tax) 450 (subtotalY inv l + 20) 12] ∧
      totalY inv l = subtotalY inv l + 40) := by
  constructor
  · intro h
    simp [taxOps, totalY, h]
  · intro h
    simp [taxOps, totalY, h]

/-- Witness for C2 at concrete invoices: `sampleInvoice` has `tax = 0`,
`sampleInvoiceTaxed` has `tax = 8.25`. -/
theorem c2_witness :
    (taxOps sampleInvoice LogoState.absent = [] ∧
      totalY sampleInvoice LogoState.absent =
        subtotalY sampleInvoice LogoState.absent + 20) ∧
    (taxOps sampleInvoiceTaxed LogoState.present =
        [Op.text "Tax:" 350 (subtotalY sampleInvoiceTaxed LogoState.present + 20) 12,
         Op.text ("$" ++ toFixed2 sampleInvoiceTaxed.tax) 450
           (subtotalY sampleInvoiceTaxed LogoState.present + 20) 12] ∧
      totalY sampleInvoiceTaxed LogoState.present =
        subtotalY sampleInvoiceTaxed LogoState.present + 40) :=
  ⟨(c2_tax_line_totals sampleInvoice LogoState.absent).1 rfl,
   (c2_tax_line_totals sampleInvoiceTaxed LogoState.present).2
     (by norm_num [sampleInvoiceTaxed, sampleInvoice])⟩

/-- C7: when the logo asset exists but fails to load, the failure is
swallowed and the render emits exactly the same operation sequence as a
render with no logo present at all. -/
theorem c7_broken_logo_neutral (inv : Invoice) :
    render inv LogoState.broken = render inv LogoState.absent := rfl

/-- C8: rendering is deterministic — equal invoice values and equal logo
states yield an identical emitted operation stream. -/
theorem c8_deterministic (inv1 inv2 : Invoice) (l1 l2 : LogoState)
    (h1 : inv1 = inv2) (h2 : l1 = l2) :
    render inv1 l1 = render inv2 l2 := by
  rw [h1, h2]

/-- Witness for C8 at a concrete invoice and logo state. -/
theorem c8_witness :
    render sampleInvoice LogoState.present = render sampleInvoice LogoState.present :=
  c8_deterministic sampleInvoice sampleInvoice LogoState.present LogoState.present
    rfl rfl

/-- C1 counterexample: the claim says the client block's origin shifts by
exactly the logo-reserved height (70 units) when the logo is present, but it
shifts by only 60: without a logo the origin is clamped up to the fixed
minimum 160 (> headerY + 100 = 150), absorbing 10 of the 70 units. -/
theorem c1_counterexample :
    clientY LogoState.present = clientY LogoState.absent + 60 ∧
    ¬ (clientY LogoState.present = clientY LogoState.absent + 70) := by
  decide

/-- C1 (amended): rendering with the logo present versus absent shifts the
company header and the invoice-title block down by exactly the logo-reserved
height (70 units), and shifts the client block and every block below it
(item table, rows, totals, footer) down by exactly 60 units — the no-logo
client origin is clamped up to the fixed minimum 160 instead of
headerY + 100 = 150, absorbing 10 of the 70 units; apart from the image
operation and these vertical offsets, the two renders emit identical
operation sequences (same texts, horizontal positions and font sizes in the
same order). -/
theorem c1_amended_logo_shift (inv : Invoice) :
    headerY LogoState.present = headerY LogoState.absent + 70 ∧
    invoiceTitleY LogoState.present = invoiceTitleY LogoState.absent + 70 ∧
    clientY LogoState.present = clientY LogoState.absent + 60 ∧
    tableTop inv LogoState.present = tableTop inv LogoState.absent + 60 ∧
    (∀ i, rowY inv LogoState.present i = rowY inv LogoState.absent i + 60) ∧
    subtotalY inv LogoState.present = subtotalY inv LogoState.absent + 60 ∧
    totalY inv LogoState.present = totalY inv LogoState.absent + 60 ∧
    footerY inv LogoState.present = footerY inv LogoState.absent + 60 ∧
    ((render inv LogoState.present).filter (fun o => !o.isImage)).map eraseY =
      ((render inv LogoState.absent).filter (fun o => !o.isImage)).map eraseY := by
  have hc : clientY LogoState.present = clientY LogoState.absent + 60 := by decide
  have htt : tableTop inv LogoState.present = tableTop inv LogoState.absent + 60 := by
    simp only [tableTop, hc]
    omega
  refine ⟨by decide, by decide, hc, htt, ?_, ?_, ?_, ?_, ?_⟩
  · intro i
    simp only [rowY, htt]
    omega
  · simp only [subtotalY, totalsRuleY, yAfterItems, htt]
    omega
  · simp only [totalY, subtotalY, totalsRuleY, yAfterItems, htt]
    omega
  · simp only [footerY, totalY, subtotalY, totalsRuleY, yAfterItems, htt]
    omega
  · cases hdd : inv.dueDate <;>
      cases had : inv.clientInfo.address <;>
      cases hph : inv.clientInfo.phone <;>
      by_cases htax : 0 < inv.tax <;>
      simp [render, logoOps, dueDateOps, addressOps, phoneOps, taxOps, eraseY,
        Op.isImage, List.filter_append, List.map_append, hdd, had, hph, htax] <;>
      exact itemRowOps_filter_map_eraseY inv.items _ _


/-- C3: omitting the client address shifts every subsequent emitted line
(the phone line when present, the item-table top and rows, the totals lines
and the footer) upward by exactly one conditional-line height (15 units),
and a present phone line is then emitted at `clientY + 50`, the exact slot
the address line occupies when present — no residual gap. -/
theorem c3_address_shift (inv : Invoice) (l : LogoState) (a : String)
    (h : inv.clientInfo.address = some a) :
    tableTop inv l = tableTop (setAddress inv none) l + 15 ∧
    (∀ i, rowY inv l i = rowY (setAddress inv none) l i + 15) ∧
    subtotalY inv l = subtotalY (setAddress inv none) l + 15 ∧
    totalY inv l = totalY (setAddress inv none) l + 15 ∧
    footerY inv l = footerY (setAddress inv none) l + 15 ∧
    addressOps inv l = [Op.text a 50 (clientY l + 50) 12] ∧
    (∀ p, inv.clientInfo.phone = some p →
      phoneOps (setAddress inv none) l = [Op.text p 50 (clientY l + 50) 12]) := by
  have htt : tableTop inv l = tableTop (setAddress inv none) l + 15 := by
    simp [tableTop, clientInfoHeight, setAddress, h]
    omega
  refine ⟨htt, ?_, ?_, ?_, ?_, ?_, ?_⟩
  · intro i
    simp only [rowY, htt]
    omega
  · simp only [subtotalY, totalsRuleY, yAfterItems, setAddress, htt]
    omega
  · simp only [totalY, subtotalY, totalsRuleY, yAfterItems, setAddress, htt]
    omega
  · simp only [footerY, totalY, subtotalY, totalsRuleY, yAfterItems, setAddress, htt]
    omega
  · simp [addressOps, h]
  · intro p hp
    simp [phoneOps, setAddress, hp]

/-- Witness for C3 at a concrete invoice with both address and phone. -/
theorem c3_witness :
    tableTop sampleInvoice LogoState.absent =
      tableTop (setAddress sampleInvoice none) LogoState.absent + 15 ∧
    phoneOps (setAddress sampleInvoice none) LogoState.absent =
      [Op.text "555-0100" 50 (clientY LogoState.absent + 50) 12] := by
  have h := c3_address_shift sampleInvoice LogoState.absent "1 Road St" rfl
  exact ⟨h.1, (h.2.2.2.2.2.2 "555-0100" rfl)⟩

/-- C4: for every invoice with at least one item, the item-table header sits
strictly below the last emitted client-block line, consecutive item rows are
exactly one fixed row height (20 units) apart, and row `i` emits the `i`-th
item's description (input order) at `rowY i`. -/
theorem c4_table_rows (inv : Invoice) (l : LogoState)
    (h : 1 ≤ inv.items.length) :
    lastClientLineY inv l < tableTop inv l ∧
    (∀ i, i + 1 < inv.items.length → rowY inv l (i + 1) = rowY inv l i + 20) ∧
    (∀ i (hi : i < inv.items.length),
      Op.text (inv.items.get ⟨i, hi⟩).description 50 (rowY inv l i) 12 ∈
        render inv l) := by
  refine ⟨?_, ?_, ?_⟩
  · unfold lastClientLineY tableTop clientInfoHeight
    cases ha : inv.clientInfo.address.isSome <;>
      cases hp : inv.clientInfo.phone.isSome <;> simp [ha, hp]
  · intro i _
    simp only [rowY]
    omega
  · intro i hi
    have hm := itemRowOps_mem_description inv.items (tableTop inv l + 30) i hi
    have hy : tableTop inv l + 30 + 20 * i = rowY inv l i := rfl
    rw [hy] at hm
    unfold render
    exact List.mem_append_left _ (List.mem_append_left _ (List.mem_append_left _
      (List.mem_append_right _ hm)))

/-- Witness for C4 at a concrete one-item invoice. -/
theorem c4_witness :
    lastClientLineY sampleInvoice LogoState.absent <
      tableTop sampleInvoice LogoState.absent ∧
    Op.text "Design" 50 (rowY sampleInvoice LogoState.absent 0) 12 ∈
      render sampleInvoice LogoState.absent := by
  have h := c4_table_rows sampleInvoice LogoState.absent (by decide)
  refine ⟨h.1, ?_⟩
  have := h.2.2 0 (by decide)
  simpa [sampleInvoice] using this


/-- C6: a create request with a missing `clientInfo`, missing client name,
missing client email, or a missing/non-array/empty item list is answered
with a validation error and produces no effects at all: nothing is saved and
no PDF render occurs. -/
theorem c6_validation_first (req : CreateRequest) (invNum createdAt : String)
    (h : req.clientInfo = none
       ∨ (∃ c, req.clientInfo = some c ∧ (c.name = none ∨ c.email = none))
       ∨ req.items = none ∨ req.items = some []) :
    ∃ msg, createInvoice req invNum createdAt =
      (CreateResult.validationError msg, []) := by
  rcases h with h | ⟨c, hc, hne⟩ | h | h
  · exact ⟨"Client name and email are required",
      by simp [createInvoice, clientInvalid, h]⟩
  · refine ⟨"Client name and email are required", ?_⟩
    have hcl : clientInvalid req.clientInfo = true := by
      rcases hne with hn | he
      · simp [clientInvalid, hc, hn, strFalsy]
      · simp [clientInvalid, hc, he, strFalsy]
    simp [createInvoice, hcl]
  · by_cases hck : clientInvalid req.clientInfo
    · exact ⟨"Client name and email are required", by simp [createInvoice, hck]⟩
    · exact ⟨"At least one item is required", by simp [createInvoice, hck, h]⟩
  · by_cases hck : clientInvalid req.clientInfo
    · exact ⟨"Client name and email are required", by simp [createInvoice, hck]⟩
    · exact ⟨"At least one item is required", by simp [createInvoice, hck, h]⟩

/-- Witness for C6 at a concrete request with no client information. -/
theorem c6_witness :
    ∃ msg, createInvoice badReq "INV-202610-000001" "10/11/2026" =
      (CreateResult.validationError msg, []) :=
  c6_validation_first badReq "INV-202610-000001" "10/11/2026" (Or.inl rfl)

lemma createInvoice_created {req : CreateRequest} {invNum createdAt : String}
    {stored : Invoice} {effs : List Effect}
    (h : createInvoice req invNum createdAt = (CreateResult.created stored, effs)) :
    ∃ its, req.items = some its ∧
      stored.items = its.map (fun it =>
        { description := it.description, quantity := it.quantity, rate := it.rate,
          amount := it.quantity * it.rate : Item }) ∧
      stored.subtotal = its.foldl (fun acc it => acc + it.quantity * it.rate) 0 ∧
      stored.tax = jsNumOr req.tax ∧
      stored.total = stored.subtotal + stored.tax := by
  unfold createInvoice at h
  split at h
  · exact absurd h (by simp)
  · split at h
    · exact absurd h (by simp)
    · next its hits =>
        split at h
        · exact absurd h (by simp)
        · simp only [Prod.mk.injEq, CreateResult.created.injEq] at h
          obtain ⟨hstored, heffs⟩ := h
          subst hstored
          exact ⟨its, hits, rfl, rfl, rfl, rfl⟩

/-- C5: every invoice stored by a successful create has each item's amount
equal to quantity times rate, subtotal equal to the sum of the item amounts,
tax defaulting to 0 when the request omits it, and total equal to
subtotal + tax; in particular one item of quantity 2 at rate 50 with no tax
yields subtotal 100 and total 100. -/
theorem c5_create_totals :
    (∀ (req : CreateRequest) (invNum createdAt : String) (stored : Invoice)
        (effs : List Effect),
        createInvoice req invNum createdAt = (CreateResult.created stored, effs) →
        (∀ it ∈ stored.items, it.amount = it.quantity * it.rate) ∧
        stored.subtotal = (stored.items.map Item.amount).sum ∧
        (req.tax = none → stored.tax = 0) ∧
        stored.total = stored.subtotal + stored.tax) ∧
    (∃ stored effs,
        createInvoice sampleReq "INV-202610-000001" "10/11/2026" =
          (CreateResult.created stored, effs) ∧
        stored.subtotal = 100 ∧ stored.total = 100 ∧ stored.tax = 0) := by
  constructor
  · intro req invNum createdAt stored effs h
    obtain ⟨its, hits, hitems, hsub, htax, htot⟩ := createInvoice_created h
    refine ⟨?_, ?_, ?_, htot⟩
    · intro it hit
      rw [hitems] at hit
      simp only [List.mem_map] at hit
      obtain ⟨src, _, rfl⟩ := hit
      rfl
    · rw [hsub, hitems, foldl_add_eq_sum (fun it => it.quantity * it.rate) its 0,
        zero_add, List.map_map]
      rfl
    · intro hnone
      rw [htax, hnone]
      rfl
  · refine ⟨_, _, rfl, ?_, ?_, ?_⟩ <;> norm_num [jsNumOr, sampleReq]

/-- The invoice stored for `sampleReq` with the given number and date. -/
def stored0 : Invoice :=
  { invoiceNumber := "INV-202610-000001"
    clientInfo :=
      { name := "Alice Smith", email := "alice@example.com"
        address := none, phone := none }
    companyInfo := companyDefaults none
    items := [{ description := "Design", quantity := 2, rate := 50, amount := 100 }]
    subtotal := 100
    tax := 0
    total := 100
    status := "draft"
    dueDate := none
    createdAt := "10/11/2026" }

/-- The effect trace of creating `sampleReq`. -/
def effs0 : List Effect :=
  [Effect.saveRecord stored0,
   Effect.renderPDF stored0 "invoices/invoice-INV-202610-000001.pdf",
   Effect.saveRecordWithPath stored0 "invoices/invoice-INV-202610-000001.pdf"]

lemma createInvoice_sampleReq :
    createInvoice sampleReq "INV-202610-000001" "10/11/2026" =
      (CreateResult.created stored0, effs0) := by
  have hs1 : "Alice Smith".isEmpty = false := rfl
  have hs2 : "alice@example.com".isEmpty = false := rfl
  have hs3 : "invoices/invoice-" ++ "INV-202610-000001" ++ ".pdf" =
      "invoices/invoice-INV-202610-000001.pdf" := rfl
  norm_num [createInvoice, sampleReq, clientInvalid, strFalsy, jsNumOr, jsStrOr,
    jsDueDate, companyDefaults, stored0, effs0, hs1, hs2, hs3]

/-- Witness for C5: the universally quantified part applied to the concrete
sample request and its stored invoice. -/
theorem c5_witness :
    (∀ it ∈ stored0.items, it.amount = it.quantity * it.rate) ∧
    stored0.subtotal = (stored0.items.map Item.amount).sum ∧
    (sampleReq.tax = none → stored0.tax = 0) ∧
    stored0.total = stored0.subtotal + stored0.tax :=
  c5_create_totals.1 sampleReq "INV-202610-000001" "10/11/2026" stored0 effs0
    createInvoice_sampleReq

/-- C10: the create operation does not reject a negative tax: a request that
passes validation and carries `tax = t < 0` is stored with tax `t` and
`total = subtotal + t < subtotal`, and every render of that stored invoice
emits no Tax line and places the Total line one line height (20 units) below
the Subtotal line, leaving the difference unexplained. -/
theorem c10_negative_tax (req : CreateRequest) (invNum createdAt : String)
    (ci : ClientInfoReq) (its : List ItemReq) (t : ℚ)
    (hci : req.clientInfo = some ci)
    (hname : strFalsy ci.name = false) (hemail : strFalsy ci.email = false)
    (hits : req.items = some its) (hne : its ≠ [])
    (ht : req.tax = some t) (htneg : t < 0) :
    ∃ stored effs,
      createInvoice req invNum createdAt = (CreateResult.created stored, effs) ∧
      stored.tax = t ∧
      stored.total = stored.subtotal + t ∧
      stored.total < stored.subtotal ∧
      ∀ l, taxOps stored l = [] ∧ totalY stored l = subtotalY stored l + 20 := by
  have hcl : clientInvalid req.clientInfo = false := by
    simp [clientInvalid, hci, hname, hemail]
  have hemp : its.isEmpty = false := by
    cases its with
    | nil => exact absurd rfl hne
    | cons a as => rfl
  have htne : t ≠ 0 := ne_of_lt htneg
  have hjs : jsNumOr req.tax = t := by simp [jsNumOr, ht, htne]
  unfold createInvoice
  rw [hcl, hits]
  simp only [Bool.false_eq_true, if_false, hemp]
  refine ⟨_, _, rfl, ?_, ?_, ?_, ?_⟩
  · exact hjs
  · show _ + jsNumOr req.tax = _ + t
    rw [hjs]
  · show (_ : ℚ) + jsNumOr req.tax < _
    rw [hjs]
    exact add_lt_of_neg_right _ htneg
  · intro l
    constructor
    · show taxOps _ l = []
      rw [taxOps]
      have : ¬ (0 : ℚ) < jsNumOr req.tax := by
        rw [hjs]
        exact not_lt.mpr htneg.le
      simp only [this, if_false]
    · show totalY _ l = subtotalY _ l + 20
      rw [totalY]
      have : ¬ (0 : ℚ) < jsNumOr req.tax := by
        rw [hjs]
        exact not_lt.mpr htneg.le
      simp only [this, if_false]

/-- Witness for C10 at the concrete negative-tax request. -/
theorem c10_witness :
    ∃ stored effs,
      createInvoice negTaxReq "INV-202610-000001" "10/11/2026" =
        (CreateResult.created stored, effs) ∧
      stored.tax = -5 ∧
      stored.total = stored.subtotal + -5 ∧
      stored.total < stored.subtotal ∧
      ∀ l, taxOps stored l = [] ∧ totalY stored l = subtotalY stored l + 20 :=
  c10_negative_tax negTaxReq "INV-202610-000001" "10/11/2026"
    { name := some "Alice Smith", email := some "alice@example.com",
      address := none, phone := none }
    [{ description := "Design", quantity := 2, rate := 50 }] (-5)
    rfl rfl rfl rfl (by simp) rfl (by norm_num)


lemma clientInfoHeight_ge (c : ClientInfo) : 55 ≤ clientInfoHeight c := by
  unfold clientInfoHeight
  split <;> split <;> omega

lemma headerY_le_invoiceTitleY (l : LogoState) : headerY l ≤ invoiceTitleY l :=
  le_max_right _ _

lemma invoiceTitleY_le_clientY (l : LogoState) : invoiceTitleY l ≤ clientY l := by
  cases l <;> decide

lemma clientY_le_tableTop (inv : Invoice) (l : LogoState) :
    clientY l ≤ tableTop inv l := by
  have := clientInfoHeight_ge inv.clientInfo
  unfold tableTop
  omega

/-- C9: within a single render the vertical origins of the successive blocks
(company header, invoice title, client block, table top, each item row, the
totals rule, Subtotal, Total, footer) form a monotonically non-decreasing
sequence. -/
theorem c9_cursor_monotone (inv : Invoice) (l : LogoState) :
    (blockOrigins inv l).Pairwise (· ≤ ·) := by
  have h1 := headerY_le_invoiceTitleY l
  have h2 := invoiceTitleY_le_clientY l
  have h3 := clientY_le_tableTop inv l
  have hrows : ((List.range inv.items.length).map (rowY inv l)).Pairwise (· ≤ ·) := by
    refine List.Pairwise.map (rowY inv l) ?_ (List.pairwise_lt_range inv.items.length)
    intro a b hab
    unfold rowY
    omega
  unfold blockOrigins
  rw [List.pairwise_append, List.pairwise_append]
  refine ⟨⟨?_, hrows, ?_⟩, ?_, ?_⟩
  · simp only [List.pairwise_cons, List.mem_cons, List.not_mem_nil, or_false,
      List.Pairwise.nil, and_true, forall_eq_or_imp, forall_eq, false_implies,
      forall_const]
    omega
  · intro a ha b hb
    simp only [List.mem_map, List.mem_range] at hb
    obtain ⟨i, hi, rfl⟩ := hb
    simp only [List.mem_cons, List.not_mem_nil, or_false] at ha
    unfold rowY
    rcases ha with rfl | rfl | rfl | rfl <;> omega
  · simp only [List.pairwise_cons, List.mem_cons, List.not_mem_nil, or_false,
      List.Pairwise.nil, and_true, forall_eq_or_imp, forall_eq, false_implies,
      forall_const]
    unfold footerY totalY subtotalY totalsRuleY yAfterItems
    by_cases h4 : 0 < inv.tax <;> simp only [h4, if_true, if_false] <;> omega
  · intro a ha b hb
    simp only [List.mem_append, List.mem_cons, List.not_mem_nil, or_false,
      List.mem_map, List.mem_range] at ha
    simp only [List.mem_cons, List.not_mem_nil, or_false] at hb
    have hb' : totalsRuleY inv l ≤ b := by
      unfold footerY totalY subtotalY at hb
      by_cases h4 : 0 < inv.tax <;> simp only [h4, if_true, if_false] at hb <;>
        rcases hb with rfl | rfl | rfl | rfl <;> omega
    have ha' : a ≤ totalsRuleY inv l := by
      unfold totalsRuleY yAfterItems
      rcases ha with (rfl | rfl | rfl | rfl) | ⟨i, hi, rfl⟩
      · omega
      · omega
      · omega
      · omega
      · unfold rowY
        omega
    omega

end InvoiceBackend
